import Mathlib

/-!
Shallow embedding of the games API of server/app.py and server/models.py:
the optimistic-concurrency update/delete protocol on Game records, the
create validation, the filtered/ordered listing, and the report statistics.

Modelling conventions:
* a Game row is a Lean structure; the stored table is a `List Game`;
* calendar dates and times-of-day are represented by `Nat` ordinals
  (only their total order matters to the code);
* optional/nullable JSON values are `Option`; Python truthiness of an
  optional integer (`if sport_id:`) is `truthyId` (both `None` and `0`
  are falsy); a parsed date/time object is truthy exactly when present;
* the database CHECK constraints of models.py (`status IN
  ('scheduled','final')`, `home_team_id <> away_team_id`) are enforced at
  commit time by `checkGame`; a violated constraint aborts the transaction
  with `constraintViolation`, distinct from the `abort(400)` validation
  path, which is `validationError`.
-/

namespace SportsApp

/-- A stored Game row (models.py, class Game). -/
structure Game where
  id : Nat
  sport_id : Int
  home_team_id : Int
  away_team_id : Int
  venue_id : Option Int
  date : Nat
  time : Nat
  home_score : Option Int
  away_score : Option Int
  status : String
  created_at : Nat
  row_version : Nat
deriving DecidableEq, Repr

/-- Python truthiness of an optional integer request value: absent and `0` are falsy. -/
def truthyId : Option Int → Bool
  | none => false
  | some v => v != 0

/-- The commit-time CHECK constraints of the game table (models.py, Game.table args). -/
def checkGame (g : Game) : Bool :=
  (g.status == "scheduled" || g.status == "final") && g.home_team_id != g.away_team_id

/-- The sequential query filters of list_games / report_games (app.py lines 105-113):
each criterion is applied only when truthy. -/
def filterGames (store : List Game) (s t : Option Int) (f u : Option Nat) : List Game :=
  let q := store
  let q := if truthyId s then q.filter (fun g => g.sport_id == s.getD 0) else q
  let q := if truthyId t then
      q.filter (fun g => g.home_team_id == t.getD 0 || g.away_team_id == t.getD 0)
    else q
  let q := match f with
    | some v => q.filter (fun g => decide (v ≤ g.date))
    | none => q
  match u with
  | some v => q.filter (fun g => decide (g.date ≤ v))
  | none => q

/-- The ORDER BY relation of list_games (app.py line 115): date descending,
then time descending.  Rows with equal date and time are not separated. -/
def gameOrder (a b : Game) : Prop :=
  b.date < a.date ∨ (a.date = b.date ∧ b.time ≤ a.time)

instance : DecidableRel gameOrder := fun a b => by
  unfold gameOrder; infer_instance

instance : IsTotal Game gameOrder :=
  ⟨fun a b => by
    unfold gameOrder
    rcases Nat.lt_trichotomy a.date b.date with h | h | h
    · exact Or.inr (Or.inl h)
    · rcases Nat.le_total a.time b.time with ht | ht
      · exact Or.inr (Or.inr ⟨h.symm, ht⟩)
      · exact Or.inl (Or.inr ⟨h, ht⟩)
    · exact Or.inl (Or.inl h)⟩

instance : IsTrans Game gameOrder :=
  ⟨fun a b c hab hbc => by
    unfold gameOrder at hab hbc ⊢
    rcases hab with h1 | ⟨h1, h1t⟩ <;> rcases hbc with h2 | ⟨h2, h2t⟩
    · exact Or.inl (h2.trans h1)
    · exact Or.inl (h2 ▸ h1)
    · exact Or.inl (h1 ▸ h2)
    · exact Or.inr ⟨h1.trans h2, h2t.trans h1t⟩⟩

/-- GET /api/games (app.py, list_games): filter, then sort by date desc, time desc. -/
def list_games (store : List Game) (s t : Option Int) (f u : Option Nat) : List Game :=
  (filterGames store s t f u).insertionSort gameOrder

/-- The JSON body of a PUT /api/games request.  The outer `Option` is key
presence in the dict; for `date`, `time` and `status` the inner `Option`
distinguishes a present-but-falsy value (`null` or empty string), which the
code skips, from a present truthy value, which it writes through. -/
structure UpdatePatch where
  row_version : Option Nat
  sport_id : Option Int
  home_team_id : Option Int
  away_team_id : Option Int
  venue_id : Option (Option Int)
  date : Option (Option Nat)
  time : Option (Option Nat)
  home_score : Option (Option Int)
  away_score : Option (Option Int)
  status : Option (Option String)
deriving DecidableEq, Repr

/-- The field assignments of update_game (app.py lines 173-181): a present
field is written through; `date`, `time`, `status` only when also truthy.
The assignments touch pairwise distinct fields, so the sequential writes of
the source equal this simultaneous record update. -/
def applyPatch (g : Game) (p : UpdatePatch) : Game :=
  { g with
    sport_id := p.sport_id.getD g.sport_id
    home_team_id := p.home_team_id.getD g.home_team_id
    away_team_id := p.away_team_id.getD g.away_team_id
    venue_id := p.venue_id.getD g.venue_id
    date := match p.date with | some (some d) => d | _ => g.date
    time := match p.time with | some (some t) => t | _ => g.time
    home_score := p.home_score.getD g.home_score
    away_score := p.away_score.getD g.away_score
    status := match p.status with | some (some s) => s | _ => g.status }

inductive UpdateResult where
  | badRequest
  | notFound
  | conflict (current : Nat)
  | constraintViolation
  | ok (g : Game)
deriving DecidableEq, Repr

/-- PUT /api/games/gid (app.py, update_game): requires a row_version token,
404 on a missing record, 409 with the current version on a stale token,
otherwise applies the patch, bumps row_version by 1 and commits (the commit
aborting if a CHECK constraint is violated). -/
def update_game (store : List Game) (gid : Nat) (p : UpdatePatch) :
    UpdateResult × List Game :=
  match p.row_version with
  | none => (.badRequest, store)
  | some expected =>
    match store.find? (fun g => g.id == gid) with
    | none => (.notFound, store)
    | some g =>
      if expected ≠ g.row_version then (.conflict g.row_version, store)
      else
        let g2 := { applyPatch g p with row_version := g.row_version + 1 }
        if checkGame g2 then
          (.ok g2, store.map (fun h => if h.id == gid then g2 else h))
        else (.constraintViolation, store)

inductive DeleteResult where
  | notFound
  | conflict (current : Nat)
  | ok
deriving DecidableEq, Repr

/-- DELETE /api/games/gid (app.py, delete_game): 404 on a missing record;
when the caller supplied a row_version it must match or the call fails 409
with the current version; otherwise the row is removed. -/
def delete_game (store : List Game) (gid : Nat) (expected : Option Nat) :
    DeleteResult × List Game :=
  match store.find? (fun g => g.id == gid) with
  | none => (.notFound, store)
  | some g =>
    match expected with
    | some e =>
      if e ≠ g.row_version then (.conflict g.row_version, store)
      else (.ok, store.filter (fun h => h.id != gid))
    | none => (.ok, store.filter (fun h => h.id != gid))

/-- The JSON body of a POST /api/games request, after date/time parsing
(parse_date / parse_time return `none` for an absent or empty string). -/
structure CreateData where
  sport_id : Option Int
  home_team_id : Option Int
  away_team_id : Option Int
  venue_id : Option Int
  date : Option Nat
  time : Option Nat
  home_score : Option Int
  away_score : Option Int
  status : Option String
deriving DecidableEq, Repr

inductive CreateResult where
  | validationError
  | constraintViolation
  | ok (g : Game)
deriving DecidableEq, Repr

/-- The autoincrement primary key of the insert. -/
def nextId (store : List Game) : Nat :=
  (store.map (fun g => g.id)).foldr max 0 + 1

/-- The expression data.get of status or the string scheduled (app.py line 144):
a falsy status (absent or empty) falls back to the default. -/
def orScheduled : Option String → String
  | some s => if s == "" then "scheduled" else s
  | none => "scheduled"

/-- The row assembled by create_game (app.py lines 135-145) before commit. -/
def mkCreated (store : List Game) (d : CreateData) (now : Nat) : Game :=
  { id := nextId store
    sport_id := d.sport_id.getD 0
    home_team_id := d.home_team_id.getD 0
    away_team_id := d.away_team_id.getD 0
    venue_id := d.venue_id
    date := d.date.getD 0
    time := d.time.getD 0
    home_score := d.home_score
    away_score := d.away_score
    status := orScheduled d.status
    created_at := now
    row_version := 0 }

/-- POST /api/games (app.py, create_game): aborts 400 when any of the five
required values is falsy, otherwise inserts a new row with row_version 0,
the commit aborting if a CHECK constraint is violated. -/
def create_game (store : List Game) (d : CreateData) (now : Nat) :
    CreateResult × List Game :=
  if !(truthyId d.sport_id && truthyId d.home_team_id && truthyId d.away_team_id
        && d.date.isSome && d.time.isSome) then
    (.validationError, store)
  else if checkGame (mkCreated store d now) then
    (.ok (mkCreated store d now), store ++ [mkCreated store d now])
  else (.constraintViolation, store)

/-- The stats block of the report (app.py lines 263-277), plus the rows it
was computed over. -/
structure Report where
  total_games : Nat
  finals_count : Nat
  avg_points_per_final : Option ℚ
  win_rate_for_team : Option ℚ
  rows : List Game
deriving DecidableEq, Repr

/-- The two win tests of the report loop (app.py lines 256-259), as the
count a single scored final contributes to wins_for_team. -/
def winPoints (tid : Int) (r : Game) : Nat :=
  (if r.home_team_id == tid && decide (r.away_score.getD 0 < r.home_score.getD 0)
    then 1 else 0)
  + (if r.away_team_id == tid && decide (r.home_score.getD 0 < r.away_score.getD 0)
    then 1 else 0)

/-- The statistics section of report_games (app.py lines 232-277), computed
over an already filtered and ordered row sequence. -/
def summarize (rows : List Game) (team_id : Option Int) : Report :=
  let finals := rows.filter (fun r => r.status == "final")
  let scored := finals.filter (fun r => r.home_score.isSome && r.away_score.isSome)
  let total_points : Int :=
    (scored.map (fun r => r.home_score.getD 0 + r.away_score.getD 0)).sum
  let counted := scored.length
  let avg : Option ℚ :=
    if 0 < counted then some ((total_points : ℚ) / (counted : ℚ)) else none
  let win_rate : Option ℚ :=
    if truthyId team_id then
      let tid := team_id.getD 0
      let gamesFor :=
        scored.filter (fun r => r.home_team_id == tid || r.away_team_id == tid)
      let wins := (gamesFor.map (winPoints tid)).sum
      if 0 < gamesFor.length then some ((wins : ℚ) / (gamesFor.length : ℚ)) else none
    else none
  { total_games := rows.length
    finals_count := finals.length
    avg_points_per_final := avg
    win_rate_for_team := win_rate
    rows := rows }

/-- GET /api/report/games (app.py, report_games): the same filters and
ordering as list_games, then the statistics over the result. -/
def report_games (store : List Game) (s t : Option Int) (f u : Option Nat) : Report :=
  summarize (list_games store s t f u) t

/-- The conjunction of the supplied find criteria, stated as in the spec:
an equality on the sport, home-or-away membership of the team, inclusive
date bounds; an absent criterion constrains nothing. -/
def matchesCriteria (s t : Option Int) (f u : Option Nat) (g : Game) : Bool :=
  (match s with | some v => g.sport_id == v | none => true)
  && (match t with | some v => g.home_team_id == v || g.away_team_id == v | none => true)
  && (match f with | some v => decide (v ≤ g.date) | none => true)
  && (match u with | some v => decide (g.date ≤ v) | none => true)

/-- The scored finals of a row sequence: status final and both scores present. -/
def scoredFinals (rows : List Game) : List Game :=
  rows.filter (fun r =>
    r.status == "final" && (r.home_score.isSome && r.away_score.isSome))

/-- The scored finals in which the given team is the home or the away side. -/
def finalsInvolving (tid : Int) (rows : List Game) : List Game :=
  (scoredFinals rows).filter (fun r => r.home_team_id == tid || r.away_team_id == tid)

/-- The win test of the claim: the team is home with the larger score, or
away with the larger score. -/
def isWinFor (tid : Int) (r : Game) : Bool :=
  (r.home_team_id == tid && decide (r.away_score.getD 0 < r.home_score.getD 0))
  || (r.away_team_id == tid && decide (r.home_score.getD 0 < r.away_score.getD 0))

/-- The number of scored finals won by the given team. -/
def winsFor (tid : Int) (rows : List Game) : Nat :=
  (finalsInvolving tid rows).countP (isWinFor tid)

/-- A sample scheduled game, stored at row_version 3. -/
def gDemo : Game :=
  { id := 1, sport_id := 1, home_team_id := 1, away_team_id := 2, venue_id := none,
    date := 100, time := 60, home_score := none, away_score := none,
    status := "scheduled", created_at := 0, row_version := 3 }

/-- An empty update patch carrying only a row_version token of 0. -/
def pDemo : UpdatePatch :=
  { row_version := some 0, sport_id := none, home_team_id := none,
    away_team_id := none, venue_id := none, date := none, time := none,
    home_score := none, away_score := none, status := none }

/-- A create request whose two team references coincide. -/
def cdSameTeams : CreateData :=
  { sport_id := some 1, home_team_id := some 2, away_team_id := some 2,
    venue_id := none, date := some 100, time := some 60,
    home_score := none, away_score := none, status := none }

/-- A create request missing its date. -/
def cdNoDate : CreateData :=
  { sport_id := some 1, home_team_id := some 1, away_team_id := some 2,
    venue_id := none, date := none, time := some 60,
    home_score := none, away_score := none, status := none }

/-- A well-formed create request. -/
def cdGood : CreateData :=
  { sport_id := some 1, home_team_id := some 1, away_team_id := some 2,
    venue_id := none, date := some 100, time := some 60,
    home_score := none, away_score := none, status := none }

/-- First of two distinct games sharing a date and a time. -/
def gTieA : Game :=
  { id := 1, sport_id := 1, home_team_id := 1, away_team_id := 2, venue_id := none,
    date := 100, time := 50, home_score := none, away_score := none,
    status := "scheduled", created_at := 0, row_version := 0 }

/-- Second of two distinct games sharing a date and a time. -/
def gTieB : Game :=
  { id := 2, sport_id := 1, home_team_id := 3, away_team_id := 4, venue_id := none,
    date := 100, time := 50, home_score := none, away_score := none,
    status := "scheduled", created_at := 0, row_version := 0 }

/-- A final won by the home team 1 over team 2, 64 to 58. -/
def gFinalA : Game :=
  { id := 3, sport_id := 1, home_team_id := 1, away_team_id := 2, venue_id := none,
    date := 90, time := 30, home_score := some 64, away_score := some 58,
    status := "final", created_at := 0, row_version := 0 }

/-- A final lost by the away team 1 against team 3, 1 to 2. -/
def gFinalB : Game :=
  { id := 4, sport_id := 1, home_team_id := 3, away_team_id := 1, venue_id := none,
    date := 95, time := 45, home_score := some 2, away_score := some 1,
    status := "final", created_at := 0, row_version := 0 }

/-- A demo row sequence: two scored finals involving team 1 and a scheduled game. -/
def demoRows : List Game := [gFinalA, gFinalB, gDemo]

/-- C1: for every update call carrying a row_version token, a missing Game
yields NotFound with the store untouched, and a token differing from the
stored row_version yields Conflict carrying the current stored row_version,
with every stored record left entirely unchanged. -/
theorem update_notfound_conflict (store : List Game) (gid : Nat) (p : UpdatePatch)
    (v : Nat) (hv : p.row_version = some v) :
    (store.find? (fun g => g.id == gid) = none →
      update_game store gid p = (.notFound, store)) ∧
    (∀ g, store.find? (fun h => h.id == gid) = some g → v ≠ g.row_version →
      update_game store gid p = (.conflict g.row_version, store)) := by
  constructor
  · intro h
    simp [update_game, hv, h]
  · intro g hg hne
    simp [update_game, hv, hg, hne]

/-- Concrete instance of update_notfound_conflict: one-row store at
row_version 3, token 0. -/
theorem update_notfound_conflict_witness :
    update_game [gDemo] 2 pDemo = (.notFound, [gDemo]) ∧
    update_game [gDemo] 1 pDemo = (.conflict 3, [gDemo]) :=
  ⟨(update_notfound_conflict [gDemo] 2 pDemo 0 rfl).1 (by decide),
   (update_notfound_conflict [gDemo] 1 pDemo 0 rfl).2 gDemo (by decide) (by decide)⟩

/-- C2: a successful update writes exactly the fields present in the patch,
keeps every field absent from the patch at its stored value, treats a
present-but-falsy date, time or status as no change for that field, and
advances the stored row_version by exactly 1. -/
theorem update_ok_frame (store : List Game) (gid : Nat) (p : UpdatePatch)
    (g gOut : Game) (storeOut : List Game)
    (hg : store.find? (fun h => h.id == gid) = some g)
    (hok : update_game store gid p = (.ok gOut, storeOut)) :
    gOut.row_version = g.row_version + 1
    ∧ (∀ w, p.sport_id = some w → gOut.sport_id = w)
    ∧ (p.sport_id = none → gOut.sport_id = g.sport_id)
    ∧ (∀ w, p.home_team_id = some w → gOut.home_team_id = w)
    ∧ (p.home_team_id = none → gOut.home_team_id = g.home_team_id)
    ∧ (∀ w, p.away_team_id = some w → gOut.away_team_id = w)
    ∧ (p.away_team_id = none → gOut.away_team_id = g.away_team_id)
    ∧ (∀ w, p.venue_id = some w → gOut.venue_id = w)
    ∧ (p.venue_id = none → gOut.venue_id = g.venue_id)
    ∧ (∀ d, p.date = some (some d) → gOut.date = d)
    ∧ (p.date = none ∨ p.date = some none → gOut.date = g.date)
    ∧ (∀ t, p.time = some (some t) → gOut.time = t)
    ∧ (p.time = none ∨ p.time = some none → gOut.time = g.time)
    ∧ (∀ w, p.home_score = some w → gOut.home_score = w)
    ∧ (p.home_score = none → gOut.home_score = g.home_score)
    ∧ (∀ w, p.away_score = some w → gOut.away_score = w)
    ∧ (p.away_score = none → gOut.away_score = g.away_score)
    ∧ (∀ s, p.status = some (some s) → gOut.status = s)
    ∧ (p.status = none ∨ p.status = some none → gOut.status = g.status)
    ∧ gOut.id = g.id ∧ gOut.created_at = g.created_at
    ∧ storeOut = store.map (fun h => if h.id == gid then gOut else h) := by
  cases hv : p.row_version with
  | none => simp [update_game, hv] at hok
  | some v =>
    simp only [update_game, hv, hg] at hok
    split at hok
    · simp at hok
    · split at hok
      · rw [Prod.mk.injEq] at hok
        obtain ⟨h1, h2⟩ := hok
        rw [UpdateResult.ok.injEq] at h1
        subst h1
        subst h2
        refine ⟨rfl, ?_, ?_, ?_, ?_, ?_, ?_, ?_, ?_, ?_, ?_, ?_, ?_, ?_, ?_, ?_, ?_,
          ?_, ?_, rfl, rfl, rfl⟩
        all_goals first
          | (intro w hw; simp [applyPatch, hw])
          | (rintro (hw | hw) <;> simp [applyPatch, hw])
          | (intro hw; simp [applyPatch, hw])
      · simp at hok

/-- Concrete instance of update_ok_frame: a patch changing only the status,
applied at the matching token. -/
theorem update_ok_frame_witness :
    (update_game [gDemo] 1
        { pDemo with row_version := some 3, status := some (some "final") }).1 =
      UpdateResult.ok { gDemo with status := "final", row_version := 4 } ∧
    ({ gDemo with status := "final", row_version := 4 } : Game).status = "final" ∧
    ({ gDemo with status := "final", row_version := 4 } : Game).date = gDemo.date := by
  refine ⟨by decide, ?_, rfl⟩
  have h := update_ok_frame [gDemo] 1
      { pDemo with row_version := some 3, status := some (some "final") }
      gDemo { gDemo with status := "final", row_version := 4 }
      [{ gDemo with status := "final", row_version := 4 }]
      (by decide) (by decide)
  exact h.2.2.2.2.2.2.2.2.2.2.2.2.2.2.2.2.2.1 "final" rfl

/-- C3: deleting a missing Game yields NotFound; a supplied token differing
from the stored row_version yields Conflict carrying the current version
with the store intact; no supplied token deletes unconditionally, as does a
matching token; and on success no record with the target id remains. -/
theorem delete_guards (store : List Game) (gid : Nat) (expected : Option Nat) :
    (store.find? (fun h => h.id == gid) = none →
      delete_game store gid expected = (.notFound, store)) ∧
    (∀ g e, store.find? (fun h => h.id == gid) = some g → expected = some e →
      e ≠ g.row_version →
      delete_game store gid expected = (.conflict g.row_version, store)) ∧
    (∀ g, store.find? (fun h => h.id == gid) = some g → expected = none →
      delete_game store gid expected = (.ok, store.filter (fun h => h.id != gid))) ∧
    (∀ g, store.find? (fun h => h.id == gid) = some g →
      expected = some g.row_version →
      delete_game store gid expected = (.ok, store.filter (fun h => h.id != gid))) ∧
    ((delete_game store gid expected).1 = .ok →
      ∀ h ∈ (delete_game store gid expected).2, h.id ≠ gid) := by
  refine ⟨?_, ?_, ?_, ?_, ?_⟩
  · intro h
    simp [delete_game, h]
  · intro g e hg he hne
    simp [delete_game, hg, he, hne]
  · intro g hg he
    simp [delete_game, hg, he]
  · intro g hg he
    simp [delete_game, hg, he]
  · cases hf : store.find? (fun h => h.id == gid) with
    | none => simp [delete_game, hf]
    | some g =>
      cases he : expected with
      | none =>
        intro _ h hmem
        simp only [delete_game, hf, he, List.mem_filter] at hmem
        simpa using hmem.2
      | some e =>
        by_cases hne : e = g.row_version
        · intro _ h hmem
          simp only [delete_game, hf, he, hne, ne_eq, not_true_eq_false,
            if_false, List.mem_filter] at hmem
          simpa using hmem.2
        · simp [delete_game, hf, he, hne]

/-- Concrete instance of delete_guards: missing id, stale token, absent
token and matching token. -/
theorem delete_guards_witness :
    delete_game [gDemo] 2 none = (.notFound, [gDemo]) ∧
    delete_game [gDemo] 1 (some 0) = (.conflict 3, [gDemo]) ∧
    delete_game [gDemo] 1 none = (.ok, []) ∧
    delete_game [gDemo] 1 (some 3) = (.ok, []) :=
  ⟨(delete_guards [gDemo] 2 none).1 (by decide),
   (delete_guards [gDemo] 1 (some 0)).2.1 gDemo 0 (by decide) rfl (by decide),
   (delete_guards [gDemo] 1 none).2.2.1 gDemo (by decide) rfl,
   (delete_guards [gDemo] 1 (some 3)).2.2.2.1 gDemo (by decide) (by decide)⟩

/-- The store create_game leaves behind: either unchanged, or the assembled
row appended after it passed the check constraints. -/
theorem create_game_snd (store : List Game) (cd : CreateData) (now : Nat) :
    (create_game store cd now).2 = store ∨
    ((create_game store cd now).2 = store ++ [mkCreated store cd now] ∧
      checkGame (mkCreated store cd now) = true) := by
  unfold create_game
  split
  · exact Or.inl rfl
  · split
    case isTrue h => exact Or.inr ⟨rfl, h⟩
    · exact Or.inl rfl

/-- C4 counterexample: a create call whose two team references coincide,
with every required field present, is rejected by the commit-time check
constraint, which is a distinct outcome from the validation-level failure
used for missing fields. -/
theorem create_same_teams_not_validation :
    (create_game [] cdSameTeams 0).1 = CreateResult.constraintViolation ∧
    CreateResult.constraintViolation ≠ CreateResult.validationError :=
  ⟨by decide, by decide⟩

/-- C4 amended: creating a Game whose home_team_id equals its away_team_id
is rejected by the database check constraint — surfaced as a constraint
violation, not as the validation-level failure — no record is stored, and
home_team_id differs from away_team_id for every stored Game. -/
theorem create_distinct_teams_invariant (store : List Game) (cd : CreateData)
    (now : Nat) (hinv : ∀ g ∈ store, g.home_team_id ≠ g.away_team_id) :
    (cd.home_team_id = cd.away_team_id →
      (create_game store cd now).2 = store ∧
      ∀ g, (create_game store cd now).1 ≠ CreateResult.ok g) ∧
    (∀ g ∈ (create_game store cd now).2, g.home_team_id ≠ g.away_team_id) := by
  constructor
  · intro heq
    have hc : checkGame (mkCreated store cd now) = false := by
      simp [checkGame, mkCreated, heq]
    constructor
    · simp [create_game, hc, apply_ite]
    · intro g
      simp only [create_game, hc, if_false, Bool.false_eq_true]
      split <;> simp
  · intro g hg
    rcases create_game_snd store cd now with h | ⟨h, hc⟩
    · rw [h] at hg
      exact hinv g hg
    · rw [h] at hg
      rcases List.mem_append.mp hg with hmem | hmem
      · exact hinv g hmem
      · have hgeq : g = mkCreated store cd now := by simpa using hmem
        subst hgeq
        simp only [checkGame, Bool.and_eq_true, bne_iff_ne, ne_eq] at hc
        exact hc.2

/-- Concrete instance of create_distinct_teams_invariant: a same-team
create against the empty store leaves it empty and is not accepted. -/
theorem create_distinct_teams_invariant_witness :
    (create_game [] cdSameTeams 0).2 = [] ∧
    (∀ g, (create_game [] cdSameTeams 0).1 ≠ CreateResult.ok g) :=
  (create_distinct_teams_invariant [] cdSameTeams 0 (by simp)).1 rfl

/-- C5 counterexample: two distinct games share a date and a time; the
ORDER BY relation of the query holds in both directions between them, so it
defines no tie-break, and the same unordered data presented in two storage
orders is returned in two different sequences. -/
theorem no_deterministic_tiebreak :
    gameOrder gTieA gTieB ∧ gameOrder gTieB gTieA ∧ gTieA ≠ gTieB ∧
    list_games [gTieA, gTieB] none none none none = [gTieA, gTieB] ∧
    list_games [gTieB, gTieA] none none none none = [gTieB, gTieA] ∧
    ({gTieA, gTieB} : Multiset Game) = ({gTieB, gTieA} : Multiset Game) := by
  refine ⟨Or.inr ⟨rfl, le_refl _⟩, Or.inr ⟨rfl, le_refl _⟩, by decide, by decide,
    by decide, ?_⟩
  exact Multiset.cons_swap gTieA gTieB 0

/-- C5 amended: list_games returns its result sorted by the non-strict
relation date descending then time descending; rows with equal date and
time are not separated by any defined deterministic tie-break. -/
theorem list_games_sorted (store : List Game) (s t : Option Int) (f u : Option Nat) :
    List.Sorted gameOrder (list_games store s t f u) :=
  List.sorted_insertionSort gameOrder _

/-- The sequential truthiness-guarded query filters equal one filter by the
conjunction of the supplied criteria, provided neither id criterion is the
silently dropped value 0. -/
theorem filterGames_eq_filter (store : List Game) (s t : Option Int)
    (f u : Option Nat) (hs : s ≠ some 0) (ht : t ≠ some 0) :
    filterGames store s t f u = store.filter (matchesCriteria s t f u) := by
  have hsv : truthyId s = s.isSome := by
    rcases s with _ | sv
    · rfl
    · have h0 : sv ≠ 0 := fun h => hs (by rw [h])
      simp [truthyId, h0]
  have htv : truthyId t = t.isSome := by
    rcases t with _ | tv
    · rfl
    · have h0 : tv ≠ 0 := fun h => ht (by rw [h])
      simp [truthyId, h0]
  rcases s with _ | sv <;> rcases t with _ | tv <;> rcases f with _ | fv <;>
    rcases u with _ | uv <;>
    simp only [filterGames, matchesCriteria, hsv, htv, Option.isSome_none,
      Option.isSome_some, Option.getD_some, if_true, if_false,
      Bool.false_eq_true, List.filter_filter] <;>
    first
      | (symm; rw [List.filter_eq_self]; intro g hg; simp [matchesCriteria])
      | (apply List.filter_congr; intro g hg;
         simp [matchesCriteria, Bool.and_comm, Bool.and_left_comm, Bool.and_assoc])

/-- C6: for every combination of the optional criteria (with the id
criteria not being the silently dropped value 0), list_games returns
exactly the stored Games satisfying the conjunction of the supplied
criteria — the team criterion matching home or away, the date bounds
inclusive — and with no criteria it returns every stored Game. -/
theorem list_games_exact (store : List Game) (s t : Option Int) (f u : Option Nat)
    (hs : s ≠ some 0) (ht : t ≠ some 0) :
    (list_games store s t f u).Perm (store.filter (matchesCriteria s t f u)) ∧
    (list_games store none none none none).Perm store := by
  constructor
  · rw [list_games, filterGames_eq_filter store s t f u hs ht]
    exact List.perm_insertionSort gameOrder _
  · rw [list_games, filterGames_eq_filter store none none none none
      (by simp) (by simp)]
    have h : store.filter (matchesCriteria none none none none) = store := by
      simp [matchesCriteria]
    rw [h]
    exact List.perm_insertionSort gameOrder _

/-- Concrete instance of list_games_exact at sport 1, team 1 over the demo
rows. -/
theorem list_games_exact_witness :
    (list_games demoRows (some 1) (some 1) none none).Perm
      (demoRows.filter (matchesCriteria (some 1) (some 1) none none)) ∧
    (list_games demoRows none none none none).Perm demoRows :=
  list_games_exact demoRows (some 1) (some 1) none none (by decide) (by decide)

/-- The two nested report filters (final status, then both scores present)
equal the one-pass scored-finals filter. -/
theorem scored_eq (rows : List Game) :
    (rows.filter (fun r => r.status == "final")).filter
      (fun r => r.home_score.isSome && r.away_score.isSome) = scoredFinals rows := by
  rw [List.filter_filter]
  unfold scoredFinals
  apply List.filter_congr
  intro r hr
  simp [Bool.and_comm, Bool.and_left_comm, Bool.and_assoc]

/-- The two win tests of the report loop contribute 1 exactly on a win for
the team, and never 2, since the two strict score comparisons exclude each
other. -/
theorem winPoints_eq (tid : Int) (r : Game) :
    winPoints tid r = if isWinFor tid r then 1 else 0 := by
  unfold winPoints isWinFor
  cases ha : (r.home_team_id == tid && decide (r.away_score.getD 0 < r.home_score.getD 0)) <;>
    cases hb : (r.away_team_id == tid && decide (r.home_score.getD 0 < r.away_score.getD 0)) <;>
    simp [ha, hb]
  rw [Bool.and_eq_true] at ha hb
  have h1 := of_decide_eq_true ha.2
  have h2 := of_decide_eq_true hb.2
  omega

/-- Summing the per-row win contributions counts the winning rows. -/
theorem sum_winPoints (tid : Int) (l : List Game) :
    (l.map (winPoints tid)).sum = l.countP (isWinFor tid) := by
  induction l with
  | nil => rfl
  | cons r l ih =>
    rw [List.map_cons, List.sum_cons, ih, winPoints_eq, List.countP_cons]
    cases h : isWinFor tid r <;> simp [h, Nat.add_comm]

/-- C7: avg_points_per_final is the total of home plus away scores over the
scored finals divided by their number, absent when there is no scored
final; unscored finals still count in finals_count; and over an empty row
sequence every count is 0 and both statistics are absent. -/
theorem summarize_avg (rows : List Game) (t : Option Int) :
    ((summarize rows t).avg_points_per_final =
      if (scoredFinals rows).length = 0 then none
      else some
        (((((scoredFinals rows).map
            (fun r => r.home_score.getD 0 + r.away_score.getD 0)).sum : Int) : ℚ)
          / ((scoredFinals rows).length : ℚ))) ∧
    (summarize rows t).finals_count
      = (rows.filter (fun r => r.status == "final")).length ∧
    (summarize ([] : List Game) t).total_games = 0 ∧
    (summarize ([] : List Game) t).finals_count = 0 ∧
    (summarize ([] : List Game) t).avg_points_per_final = none ∧
    (summarize ([] : List Game) t).win_rate_for_team = none := by
  have hsc := scored_eq rows
  refine ⟨?_, rfl, rfl, rfl, rfl, ?_⟩
  · rcases Nat.eq_zero_or_pos (scoredFinals rows).length with h0 | h0
    · simp [summarize, hsc, h0]
    · simp [summarize, hsc, h0, h0.ne']
  · cases t with
    | none => rfl
    | some v => simp [summarize, ite_self]

/-- C8: when a nonzero team_id is supplied, win_rate_for_team is the number
of scored finals the team won over the number of scored finals it played,
absent when it played none; it is absent when no team_id was supplied; and
a drawn scored final involving the team counts in the denominator while
never satisfying the win test. -/
theorem summarize_win_rate (rows : List Game) (tid : Int) (h : tid ≠ 0) :
    ((summarize rows (some tid)).win_rate_for_team =
      if (finalsInvolving tid rows).length = 0 then none
      else some ((winsFor tid rows : ℚ) / ((finalsInvolving tid rows).length : ℚ))) ∧
    (summarize rows none).win_rate_for_team = none ∧
    (∀ r ∈ finalsInvolving tid rows,
      r.home_score.getD 0 = r.away_score.getD 0 → isWinFor tid r = false) := by
  have hsc := scored_eq rows
  refine ⟨?_, by simp [summarize, truthyId], ?_⟩
  · have hwin := sum_winPoints tid ((scoredFinals rows).filter
      (fun r => r.home_team_id == tid || r.away_team_id == tid))
    rcases Nat.eq_zero_or_pos (finalsInvolving tid rows).length with h0 | h0
    · simp only [finalsInvolving] at h0
      simp [summarize, truthyId, hsc, h, h0, finalsInvolving]
    · simp only [finalsInvolving] at h0
      simp [summarize, truthyId, hsc, h, h0, h0.ne', finalsInvolving, winsFor,
        hwin]
  · intro r hr heq
    simp [isWinFor, heq]

/-- Concrete instance of summarize_win_rate: team 1 wins one of its two
scored finals in the demo rows, and the rate evaluates to one half. -/
theorem summarize_win_rate_witness :
    ((summarize demoRows (some 1)).win_rate_for_team =
      if (finalsInvolving 1 demoRows).length = 0 then none
      else some ((winsFor 1 demoRows : ℚ) / ((finalsInvolving 1 demoRows).length : ℚ))) ∧
    (summarize demoRows none).win_rate_for_team = none ∧
    (summarize demoRows (some 1)).win_rate_for_team = some ((1 : ℚ) / 2) :=
  ⟨(summarize_win_rate demoRows 1 (by decide)).1,
   (summarize_win_rate demoRows 1 (by decide)).2.1,
   by
    have h := (summarize_win_rate demoRows 1 (by decide)).1
    have hw : winsFor 1 demoRows = 1 := by decide
    have hl : (finalsInvolving 1 demoRows).length = 2 := by decide
    rw [h, hl, hw]
    norm_num⟩

/-- C9: a create call whose required ids are absent or falsy, or whose date
or time is absent or empty, fails with a validation error and stores
nothing; an accepted create stores a row with row_version 0 whose status
defaults to scheduled when none was supplied; and when every required field
is present and truthy and the check constraints hold, the call succeeds and
appends exactly that row. -/
theorem create_validation_and_defaults (store : List Game) (cd : CreateData)
    (now : Nat) :
    ((cd.sport_id = none ∨ cd.sport_id = some 0 ∨ cd.home_team_id = none ∨
        cd.home_team_id = some 0 ∨ cd.away_team_id = none ∨ cd.away_team_id = some 0 ∨
        cd.date = none ∨ cd.time = none) →
      create_game store cd now = (CreateResult.validationError, store)) ∧
    (∀ g, (create_game store cd now).1 = CreateResult.ok g →
      g.row_version = 0 ∧ (cd.status = none → g.status = "scheduled")) ∧
    (truthyId cd.sport_id = true → truthyId cd.home_team_id = true →
      truthyId cd.away_team_id = true → cd.date.isSome = true → cd.time.isSome = true →
      cd.home_team_id ≠ cd.away_team_id →
      (orScheduled cd.status = "scheduled" ∨ orScheduled cd.status = "final") →
      create_game store cd now =
        (CreateResult.ok (mkCreated store cd now), store ++ [mkCreated store cd now]) ∧
      (mkCreated store cd now).row_version = 0 ∧
      (cd.status = none → (mkCreated store cd now).status = "scheduled")) := by
  refine ⟨?_, ?_, ?_⟩
  · intro hmiss
    rcases hmiss with h | h | h | h | h | h | h | h <;> simp [create_game, truthyId, h]
  · intro g hok
    simp only [create_game] at hok
    split at hok
    · simp at hok
    · split at hok
      · simp only [CreateResult.ok.injEq] at hok
        rw [← hok]
        exact ⟨rfl, fun h => by simp [mkCreated, orScheduled, h]⟩
      · simp at hok
  · intro h1 h2 h3 h4 h5 hne hst
    have hval : (truthyId cd.sport_id && truthyId cd.home_team_id &&
        truthyId cd.away_team_id && cd.date.isSome && cd.time.isSome) = true := by
      simp [h1, h2, h3, h4, h5]
    have hh : cd.home_team_id.getD 0 ≠ cd.away_team_id.getD 0 := by
      rcases ha : cd.home_team_id with _ | a
      · rw [ha] at h2
        simp [truthyId] at h2
      · rcases hb : cd.away_team_id with _ | b
        · rw [hb] at h3
          simp [truthyId] at h3
        · simp only [Option.getD_some]
          intro hab
          exact hne (by rw [ha, hb, hab])
    have hck : checkGame (mkCreated store cd now) = true := by
      have hstatus : (mkCreated store cd now).status = orScheduled cd.status := rfl
      simp only [checkGame, hstatus, mkCreated, Bool.and_eq_true, Bool.or_eq_true,
        beq_iff_eq, bne_iff_ne, ne_eq]
      exact ⟨hst, hh⟩
    exact ⟨by simp [create_game, hval, hck],
      rfl, fun h => by simp [mkCreated, orScheduled, h]⟩

/-- Concrete instance of create_validation_and_defaults: a request missing
its date is rejected, and a complete request is stored with row_version 0
and default status. -/
theorem create_validation_and_defaults_witness :
    create_game [] cdNoDate 0 = (CreateResult.validationError, []) ∧
    create_game [] cdGood 0 =
      (CreateResult.ok (mkCreated [] cdGood 0), [] ++ [mkCreated [] cdGood 0]) ∧
    (mkCreated [] cdGood 0).row_version = 0 ∧
    (mkCreated [] cdGood 0).status = "scheduled" :=
  ⟨(create_validation_and_defaults [] cdNoDate 0).1 (by decide),
   ((create_validation_and_defaults [] cdGood 0).2.2 (by decide) (by decide)
      (by decide) (by decide) (by decide) (by decide) (Or.inl (by decide))).1,
   rfl,
   ((create_validation_and_defaults [] cdGood 0).2.2 (by decide) (by decide)
      (by decide) (by decide) (by decide) (by decide) (Or.inl (by decide))).2.2 rfl⟩

/-- C10: a sport_id or team_id criterion supplied as 0 is silently treated
as absent by both the listing and the report: the filter is not applied,
the report is the one computed with the criterion absent, and
win_rate_for_team is absent even though a team_id value was supplied. -/
theorem zero_id_criteria_ignored (store : List Game) (s t : Option Int)
    (f u : Option Nat) :
    list_games store (some 0) t f u = list_games store none t f u ∧
    list_games store s (some 0) f u = list_games store s none f u ∧
    report_games store (some 0) t f u = report_games store none t f u ∧
    report_games store s (some 0) f u = report_games store s none f u ∧
    (report_games store s (some 0) f u).win_rate_for_team = none := by
  have h1 : list_games store (some 0) t f u = list_games store none t f u := by
    simp [list_games, filterGames, truthyId]
  have h2 : list_games store s (some 0) f u = list_games store s none f u := by
    simp [list_games, filterGames, truthyId]
  have h3 : ∀ rows, summarize rows (some (0 : Int)) = summarize rows none := by
    intro rows
    simp [summarize, truthyId]
  refine ⟨h1, h2, ?_, ?_, ?_⟩
  · rw [report_games, report_games, h1]
  · rw [report_games, report_games, h2, h3]
  · rw [report_games, h3]
    simp [summarize, truthyId]
